import Mathlib

/-!
Shallow embedding of `src/server.py`, the Maqsam voice-agent WebSocket server.

The server is a single class `MaqsamVoiceAgent` holding an auth token, a
websocket handle, a call context and a heartbeat task, plus a connection
handler `handle_connection` that authenticates the HTTP upgrade, starts a
heartbeat, and then dispatches JSON text frames (`session.setup`,
`audio.input`) in a loop.

Python values parsed by `json.loads` are modelled by `Json`; a received text
frame is modelled by `Frame`, carrying the raw payload (for the
`if not message` emptiness check) and the result of `json.loads` on it
(`none` models a `json.JSONDecodeError`).  Observable actions (frames sent,
socket closes, heartbeat task start/stop, calls into the placeholder
`generate_ai_response`) are modelled as an `Event` trace.  Exceptions raised
and caught inside the Python code (`AttributeError` from `.get` on a
non-dict, `TypeError` from `len` on an unsized value) are modelled by the
corresponding control-flow branch of each embedded function.
-/

/-- A JSON value as produced by Python `json.loads` (floats are out of scope
for the protocol, which uses strings and objects). -/
inductive Json where
  | null
  | bool (b : Bool)
  | num (n : Int)
  | str (s : String)
  | arr (xs : List Json)
  | obj (fields : List (String × Json))

namespace Json

/-- Python truthiness of a `json.loads` value, as used by
`if api_key and ...` in `handle_session_setup`. -/
def truthy : Json → Bool
  | .null => false
  | .bool b => b
  | .num n => n != 0
  | .str s => s ≠ ""
  | .arr xs => !xs.isEmpty
  | .obj fs => !fs.isEmpty

/-- Python `==` between a `json.loads` value and a Python `str`:
only a JSON string can compare equal to a `str`. -/
def eqStr : Json → String → Bool
  | .str s, t => s = t
  | _, _ => false

/-- Python `len()` of a `json.loads` value: `some` for sized values,
`none` models the `TypeError` raised on `None`, numbers and booleans. -/
def pyLen : Json → Option Nat
  | .str s => some s.length
  | .arr xs => some xs.length
  | .obj fs => some fs.length
  | _ => none

/-- Whether the value is a JSON object, i.e. a Python `dict` carrying the
`.get` method; `.get` on any other value raises `AttributeError`. -/
def isObj : Json → Bool
  | .obj _ => true
  | _ => false

end Json

/-- An inbound WebSocket text frame: the raw payload (checked by
`if not message` before parsing) and the result of `json.loads` on it
(`none` models a `json.JSONDecodeError`). -/
structure Frame where
  raw : String
  parse : Option Json

/-- Observable actions of the connection handler. -/
inductive Event where
  | heartbeatStarted
  | heartbeatStopped
  | sent (j : Json)
  | closed (code : Nat) (reason : String)
  | aiResponse

/-- The `session.ready` confirmation sent by `send_session_ready`. -/
def sessionReadyMessage : Json := Json.obj [("type", Json.str "session.ready")]

/-- Embeds `MaqsamVoiceAgent.handle_session_setup` (lines 43-60).  The result
is the value assigned to `self.call_context` (if the assignment at line 52
executed) and the returned success flag.  Branches returning `false` without
an assignment model the token-mismatch early return and the `AttributeError`
raised by `.get` on a non-dict, caught by the method's own `except`; the
`(some context, false)` branch models the `AttributeError` raised by the
logging calls at lines 53-56 after the assignment, when the extracted context
is not a dict. -/
def handle_session_setup (auth_token : String) (message_data : Json) :
    Option Json × Bool :=
  match message_data with
  | .obj fields =>
    let api_key := (fields.lookup "apiKey").getD Json.null
    if api_key.truthy && !(api_key.eqStr auth_token) then (none, false)
    else
      match (fields.lookup "data").getD (Json.obj []) with
      | .obj dfields =>
        let context := (dfields.lookup "context").getD (Json.obj [])
        if context.isObj then (some context, true)
        else (some context, false)
      | _ => (none, false)
  | _ => (none, false)

/-- Embeds `MaqsamVoiceAgent.handle_audio_input` (lines 72-82): `true` iff
control reaches the `generate_ai_response()` call.  `false` models the
`AttributeError` from `.get` on a non-dict `data` field or the `TypeError`
from `len` on an unsized `audio` value, both swallowed by the method's own
`except`. -/
def handle_audio_input (message_data : Json) : Bool :=
  match message_data with
  | .obj fields =>
    match (fields.lookup "data").getD (Json.obj []) with
    | .obj dfields => (((dfields.lookup "audio").getD (Json.str "")).pyLen).isSome
    | _ => false
  | _ => false

/-- One iteration of the `async for message in websocket` loop in
`handle_connection` (lines 172-202): the updated `self.call_context`, the
events emitted while handling the frame, and whether the loop continues
(`false` models the `return` after a close).  A parsed non-dict payload makes
`data.get('type')` raise `AttributeError`, caught by the loop's
`except Exception` which logs and continues. -/
def processFrame (auth_token : String) (call_context : Option Json) (f : Frame) :
    Option Json × List Event × Bool :=
  if f.raw = "" then (call_context, [], true)
  else
    match f.parse with
    | none => (call_context, [Event.closed 1002 "Invalid JSON"], false)
    | some data =>
      match data with
      | .obj fields =>
        let message_type := (fields.lookup "type").getD Json.null
        if message_type.eqStr "session.setup" then
          let r := handle_session_setup auth_token data
          let cc := match r.1 with
            | some c => some c
            | none => call_context
          if r.2 then (cc, [Event.sent sessionReadyMessage], true)
          else (cc, [Event.closed 1002 "Session setup failed"], false)
        else if message_type.eqStr "audio.input" then
          (call_context,
           if handle_audio_input data then [Event.aiResponse] else [], true)
        else (call_context, [], true)
      | _ => (call_context, [], true)

/-- The message loop of `handle_connection`, folded over the inbound frames:
final `self.call_context` and the emitted events.  Reaching the end of the
list models the peer closing the connection (the `async for` ending or
`ConnectionClosed`). -/
def runLoop (auth_token : String) (call_context : Option Json) :
    List Frame → Option Json × List Event
  | [] => (call_context, [])
  | f :: fs =>
    let r := processFrame auth_token call_context f
    if r.2.2 then
      let rest := runLoop auth_token r.1 fs
      (rest.1, r.2.1 ++ rest.2)
    else (r.1, r.2.1)

/-- `true` when the loop processes all of `fs` without an early `return`. -/
def loopRuns (auth_token : String) (call_context : Option Json) :
    List Frame → Bool
  | [] => true
  | f :: fs =>
    let r := processFrame auth_token call_context f
    r.2.2 && loopRuns auth_token r.1 fs

/-- The header chain at line 32,
`websocket.request.headers.get('Auth') or ...get('Authorization')`:
Python `or` falls through when the first operand is falsy
(a missing header is `None`, and the empty string is falsy too). -/
def authHeaderOf (headers : List (String × String)) : Option String :=
  match headers.lookup "Auth" with
  | some s => if s = "" then headers.lookup "Authorization" else some s
  | none => headers.lookup "Authorization"

/-- Embeds `MaqsamVoiceAgent.authenticate_connection` (lines 27-41):
the events emitted and the returned success flag. -/
def authenticate_connection (auth_token : String)
    (headers : List (String × String)) : List Event × Bool :=
  if authHeaderOf headers = some auth_token then ([], true)
  else ([Event.closed 1008 "Unauthorized"], false)

/-- Result of one invocation of `handle_connection`: the event trace and the
values of `self.websocket` and `self.call_context` when the handler returns. -/
structure ConnResult where
  events : List Event
  websocket : Option Nat
  call_context : Option Json

/-- Embeds `MaqsamVoiceAgent.handle_connection` (lines 157-213) for one
invocation.  `connId` models the websocket handle assigned to
`self.websocket` at line 159 and `call_context0` the value of
`self.call_context` on entry (`none` for a fresh agent).  An authentication
failure returns at line 164, before the `try`/`finally`, so the `finally`
cleanup at lines 209-213 does not run on that path. -/
def handle_connection (auth_token : String) (connId : Nat)
    (call_context0 : Option Json) (headers : List (String × String))
    (frames : List Frame) : ConnResult :=
  let auth := authenticate_connection auth_token headers
  if auth.2 then
    let r := runLoop auth_token call_context0 frames
    { events := auth.1 ++ [Event.heartbeatStarted] ++ r.2 ++ [Event.heartbeatStopped],
      websocket := none, call_context := none }
  else
    { events := auth.1, websocket := some connId, call_context := call_context0 }

/-- The static token configured in `main` (line 219). -/
def AUTH_TOKEN : String := "2BUrGJJPmN7WvNzEtDmD"

/-! ### Shared instance state

`main` (lines 219-237) creates a single `MaqsamVoiceAgent` and registers its
bound `handle_connection` as the handler for every connection, so all
connections read and write the same instance attributes.  The writes a
handler performs on the shared instance are modelled as `SharedOp` lists so
interleavings of concurrent connections can be examined. -/

/-- A write to the shared `MaqsamVoiceAgent` instance attributes. -/
inductive SharedOp where
  | setWebsocket (w : Option Nat)
  | setContext (c : Option Json)
  | startHeartbeat
  | stopHeartbeat

/-- The shared instance attributes of the single `MaqsamVoiceAgent`. -/
structure Shared where
  websocket : Option Nat
  call_context : Option Json
  heartbeat : Bool

/-- The instance state established by `MaqsamVoiceAgent.__init__`. -/
def initShared : Shared :=
  { websocket := none, call_context := none, heartbeat := false }

/-- Apply one attribute write. -/
def applyOp (s : Shared) : SharedOp → Shared
  | .setWebsocket w => { s with websocket := w }
  | .setContext c => { s with call_context := c }
  | .startHeartbeat => { s with heartbeat := true }
  | .stopHeartbeat => { s with heartbeat := false }

/-- Apply a sequence of attribute writes (an interleaving of the writes of
several connection handlers). -/
def applyOps : Shared → List SharedOp → Shared := List.foldl applyOp

/-- The `self.call_context` writes performed while handling one frame
(the assignment at line 52, when it executes). -/
def frameOps (auth_token : String) (f : Frame) : List SharedOp :=
  if f.raw = "" then []
  else
    match f.parse with
    | none => []
    | some data =>
      match data with
      | .obj fields =>
        if ((fields.lookup "type").getD Json.null).eqStr "session.setup" then
          match (handle_session_setup auth_token data).1 with
          | some c => [SharedOp.setContext (some c)]
          | none => []
        else []
      | _ => []

/-- The `self.call_context` writes of the whole message loop. -/
def loopOps (auth_token : String) (call_context : Option Json) :
    List Frame → List SharedOp
  | [] => []
  | f :: fs =>
    let r := processFrame auth_token call_context f
    frameOps auth_token f ++ (if r.2.2 then loopOps auth_token r.1 fs else [])

/-- The shared-instance writes performed by one run of `handle_connection`:
the `self.websocket` assignment at line 159, the heartbeat start, the loop's
`self.call_context` writes, and the `finally` cleanup (lines 209-213) when
authentication succeeded. -/
def connOps (auth_token : String) (connId : Nat) (call_context0 : Option Json)
    (headers : List (String × String)) (frames : List Frame) : List SharedOp :=
  SharedOp.setWebsocket (some connId) ::
  (if (authenticate_connection auth_token headers).2 then
    [SharedOp.startHeartbeat] ++ loopOps auth_token call_context0 frames ++
    [SharedOp.stopHeartbeat, SharedOp.setWebsocket none, SharedOp.setContext none]
  else [])

/-- A `session.setup` frame carrying a call id, used to examine interleavings
of two connections on the shared instance. -/
def setupFrame (i : Int) : Frame :=
  { raw := "setup",
    parse := some (Json.obj [("type", Json.str "session.setup"),
      ("data", Json.obj [("context", Json.obj [("id", Json.num i)])])]) }

/-! ### Helper lemmas -/

theorem authHeaderOf_ne (auth_token : String) (headers : List (String × String))
    (h1 : headers.lookup "Auth" ≠ some auth_token)
    (h2 : headers.lookup "Authorization" ≠ some auth_token) :
    authHeaderOf headers ≠ some auth_token := by
  unfold authHeaderOf
  cases h : headers.lookup "Auth" with
  | none => exact h2
  | some s =>
    rw [h] at h1
    by_cases hs : s = ""
    · simpa [hs] using h2
    · simpa [hs] using h1

theorem eqStr_true_iff (j : Json) (s : String) :
    j.eqStr s = true ↔ j = Json.str s := by
  cases j <;> simp [Json.eqStr]

/-! ### Claims -/

/-- C1: a connection whose upgrade request carries neither an `Auth` nor an
`Authorization` header equal to the configured token is closed with code 1008
by `handle_connection`, which returns before the message loop: no heartbeat
is started and no frame is processed (the trace is just the 1008 close). -/
theorem upgrade_auth_rejected (auth_token : String) (connId : Nat)
    (cc0 : Option Json) (headers : List (String × String)) (frames : List Frame)
    (h1 : headers.lookup "Auth" ≠ some auth_token)
    (h2 : headers.lookup "Authorization" ≠ some auth_token) :
    handle_connection auth_token connId cc0 headers frames =
      { events := [Event.closed 1008 "Unauthorized"], websocket := some connId,
        call_context := cc0 } := by
  have hne := authHeaderOf_ne auth_token headers h1 h2
  unfold handle_connection authenticate_connection
  simp [hne]

/-- Witness for C1: a concrete connection with no matching auth header. -/
theorem upgrade_auth_rejected_witness :
    (([("User-Agent", "maqsam")] : List (String × String)).lookup "Auth" ≠
        some AUTH_TOKEN) ∧
    (([("User-Agent", "maqsam")] : List (String × String)).lookup "Authorization" ≠
        some AUTH_TOKEN) ∧
    handle_connection AUTH_TOKEN 5 none [("User-Agent", "maqsam")]
        [{ raw := "x", parse := none }] =
      { events := [Event.closed 1008 "Unauthorized"], websocket := some 5,
        call_context := none } :=
  ⟨by decide, by decide,
   upgrade_auth_rejected AUTH_TOKEN 5 none [("User-Agent", "maqsam")]
     [{ raw := "x", parse := none }] (by decide) (by decide)⟩

/-- C2: `main` creates a single `MaqsamVoiceAgent` and registers its bound
`handle_connection` for every connection, so per-connection state lives in
shared instance attributes.  In the interleaving where connection 2 has
authenticated and stored its call context and connection 1's `finally`
cleanup then runs, connection 1's handling overwrites the `websocket` and
`call_context` that connection 2's handling set and still relies on: the
state is shared and clobbered across connections. -/
theorem shared_instance_clobbered :
    (applyOps initShared
        ((connOps AUTH_TOKEN 2 none [("Auth", AUTH_TOKEN)] [setupFrame 2]).take 3)).call_context =
      some (Json.obj [("id", Json.num 2)]) ∧
    (applyOps initShared
        ((connOps AUTH_TOKEN 2 none [("Auth", AUTH_TOKEN)] [setupFrame 2]).take 3)).websocket =
      some 2 ∧
    (applyOps initShared
        ((connOps AUTH_TOKEN 2 none [("Auth", AUTH_TOKEN)] [setupFrame 2]).take 3 ++
         (connOps AUTH_TOKEN 1 none [("Auth", AUTH_TOKEN)] [setupFrame 1]).drop 3)).call_context =
      none ∧
    (applyOps initShared
        ((connOps AUTH_TOKEN 2 none [("Auth", AUTH_TOKEN)] [setupFrame 2]).take 3 ++
         (connOps AUTH_TOKEN 1 none [("Auth", AUTH_TOKEN)] [setupFrame 1]).drop 3)).websocket =
      none :=
  ⟨rfl, rfl, rfl, rfl⟩

/-- C3 counterexample: an empty text frame is not valid JSON
(`json.loads("")` raises `JSONDecodeError`), yet line 174 skips it without
closing and the connection continues: the audio frame that follows is still
processed (the trace is one `aiResponse`, no 1002 close). -/
theorem empty_payload_continues :
    processFrame AUTH_TOKEN none { raw := "", parse := none } = (none, [], true) ∧
    runLoop AUTH_TOKEN none
        [{ raw := "", parse := none },
         { raw := "audio",
           parse := some (Json.obj [("type", Json.str "audio.input"),
             ("data", Json.obj [("audio", Json.str "UklGR")])]) }] =
      (none, [Event.aiResponse]) :=
  ⟨rfl, rfl⟩

/-- C3 (amended): for every received NON-EMPTY text frame whose payload is
not valid JSON, reached after a prefix the loop survives, the loop closes the
socket with code 1002 and returns: the events are exactly the prefix's events
followed by the 1002 close, and the frames after the bad one are never
processed.  (An empty payload, though also invalid JSON, is skipped by the
`if not message` check instead.) -/
theorem invalid_json_closes (auth_token : String) (cc : Option Json)
    (fs1 : List Frame) (raw : String) (fs2 : List Frame)
    (hraw : raw ≠ "")
    (hrun : loopRuns auth_token cc fs1 = true) :
    runLoop auth_token cc (fs1 ++ { raw := raw, parse := none } :: fs2) =
      ((runLoop auth_token cc fs1).1,
       (runLoop auth_token cc fs1).2 ++ [Event.closed 1002 "Invalid JSON"]) := by
  induction fs1 generalizing cc with
  | nil => simp [runLoop, processFrame, hraw]
  | cons f fs ih =>
    unfold loopRuns at hrun
    simp only [Bool.and_eq_true] at hrun
    have h := ih _ hrun.2
    simp only [List.cons_append, runLoop, hrun.1, if_true]
    simp [h]

/-- Witness for the amended C3: a concrete loop that survives one audio frame
and then receives the non-JSON payload "not json". -/
theorem invalid_json_closes_witness :
    ("not json" : String) ≠ "" ∧
    loopRuns AUTH_TOKEN none
        [{ raw := "a", parse := some (Json.obj [("type", Json.str "audio.input")]) }] = true ∧
    runLoop AUTH_TOKEN none
        ([{ raw := "a", parse := some (Json.obj [("type", Json.str "audio.input")]) }] ++
          { raw := "not json", parse := none } ::
          [{ raw := "late", parse := some (Json.obj [("type", Json.str "audio.input")]) }]) =
      ((runLoop AUTH_TOKEN none
          [{ raw := "a", parse := some (Json.obj [("type", Json.str "audio.input")]) }]).1,
       (runLoop AUTH_TOKEN none
          [{ raw := "a", parse := some (Json.obj [("type", Json.str "audio.input")]) }]).2 ++
         [Event.closed 1002 "Invalid JSON"]) :=
  ⟨by decide, rfl,
   invalid_json_closes AUTH_TOKEN none
     [{ raw := "a", parse := some (Json.obj [("type", Json.str "audio.input")]) }]
     "not json"
     [{ raw := "late", parse := some (Json.obj [("type", Json.str "audio.input")]) }]
     (by decide) rfl⟩

/-- C4 counterexample: a `session.setup` whose `apiKey` field is present as
JSON `null` differs from the configured token, yet `handle_session_setup`
returns `True` (the `if api_key and ...` guard skips falsy values) and a
`session.ready` is sent instead of a 1002 close. -/
theorem null_apikey_not_rejected :
    handle_session_setup AUTH_TOKEN
        (Json.obj [("type", Json.str "session.setup"), ("apiKey", Json.null)]) =
      (some (Json.obj []), true) ∧
    processFrame AUTH_TOKEN none
        { raw := "m",
          parse := some (Json.obj [("type", Json.str "session.setup"),
            ("apiKey", Json.null)]) } =
      (some (Json.obj []), [Event.sent sessionReadyMessage], true) :=
  ⟨rfl, rfl⟩

/-- C4 (amended): for every `session.setup` whose `apiKey` field is present
with a TRUTHY value (e.g. a non-empty string) differing from the configured
token, `handle_session_setup` returns `False` without assigning the call
context, no `session.ready` is sent, and the socket is closed with code 1002
(the only event is the close, and the loop returns). -/
theorem mismatched_apikey_rejected (auth_token : String) (cc : Option Json)
    (raw : String) (fields : List (String × Json)) (k : Json)
    (hraw : raw ≠ "")
    (hty : ((fields.lookup "type").getD Json.null).eqStr "session.setup" = true)
    (hk : fields.lookup "apiKey" = some k)
    (htr : k.truthy = true)
    (hne : k.eqStr auth_token = false) :
    handle_session_setup auth_token (Json.obj fields) = (none, false) ∧
    processFrame auth_token cc { raw := raw, parse := some (Json.obj fields) } =
      (cc, [Event.closed 1002 "Session setup failed"], false) := by
  have hss : handle_session_setup auth_token (Json.obj fields) = (none, false) := by
    unfold handle_session_setup
    simp [hk, htr, hne]
  refine ⟨hss, ?_⟩
  unfold processFrame
  simp [hraw, hty, hss]

/-- Witness for the amended C4: a concrete setup message with a wrong
non-empty `apiKey` string. -/
theorem mismatched_apikey_rejected_witness :
    ("m" : String) ≠ "" ∧
    (([("type", Json.str "session.setup"), ("apiKey", Json.str "wrong")] :
        List (String × Json)).lookup "apiKey" = some (Json.str "wrong")) ∧
    (Json.str "wrong").truthy = true ∧
    (Json.str "wrong").eqStr AUTH_TOKEN = false ∧
    (handle_session_setup AUTH_TOKEN
        (Json.obj [("type", Json.str "session.setup"),
          ("apiKey", Json.str "wrong")]) = (none, false) ∧
     processFrame AUTH_TOKEN none
        { raw := "m",
          parse := some (Json.obj [("type", Json.str "session.setup"),
            ("apiKey", Json.str "wrong")]) } =
       (none, [Event.closed 1002 "Session setup failed"], false)) :=
  ⟨by decide, rfl, by decide, by decide,
   mismatched_apikey_rejected AUTH_TOKEN none "m"
     [("type", Json.str "session.setup"), ("apiKey", Json.str "wrong")]
     (Json.str "wrong") (by decide) (by decide) rfl (by decide) (by decide)⟩

/-- C5: a `session.setup` accepted by `handle_session_setup` is answered by
exactly one outbound frame, the `session.ready` message, and no other inbound
frame (empty, non-JSON, non-dict, or of any other message type) ever causes a
`session.ready` to be sent. -/
theorem session_ready_exactly_on_accept (auth_token : String) :
    (∀ (cc : Option Json) (raw : String) (fields : List (String × Json))
        (a : Option Json), raw ≠ "" →
      ((fields.lookup "type").getD Json.null).eqStr "session.setup" = true →
      handle_session_setup auth_token (Json.obj fields) = (a, true) →
      (processFrame auth_token cc { raw := raw, parse := some (Json.obj fields) }).2.1 =
        [Event.sent sessionReadyMessage]) ∧
    (∀ (cc : Option Json) (f : Frame),
      (∀ fields : List (String × Json), f.parse = some (Json.obj fields) →
        ((fields.lookup "type").getD Json.null).eqStr "session.setup" = false) →
      Event.sent sessionReadyMessage ∉ (processFrame auth_token cc f).2.1) := by
  constructor
  · intro cc raw fields a hraw hty hss
    unfold processFrame
    simp [hraw, hty, hss]
  · intro cc f h
    unfold processFrame
    by_cases hr : f.raw = ""
    · simp [hr]
    · simp only [hr, if_false]
      cases hp : f.parse with
      | none => simp
      | some j =>
        cases j with
        | obj fields =>
          have := h fields hp
          simp only [this, Bool.false_eq_true, if_false]
          by_cases ha : ((fields.lookup "type").getD Json.null).eqStr "audio.input" = true
          · simp only [ha, if_true]
            by_cases hai : handle_audio_input (Json.obj fields) = true
            · simp [hai]
            · simp [hai]
          · simp [ha]
        | null => simp
        | bool b => simp
        | num n => simp
        | str s => simp
        | arr xs => simp

/-- Witness for C5: a concrete accepted setup yields the single
`session.ready`, and a concrete audio frame yields none. -/
theorem session_ready_exactly_on_accept_witness :
    ("m" : String) ≠ "" ∧
    (processFrame AUTH_TOKEN none
        { raw := "m",
          parse := some (Json.obj [("type", Json.str "session.setup")]) }).2.1 =
      [Event.sent sessionReadyMessage] ∧
    Event.sent sessionReadyMessage ∉
      (processFrame AUTH_TOKEN none
        { raw := "a",
          parse := some (Json.obj [("type", Json.str "audio.input")]) }).2.1 :=
  ⟨by decide,
   (session_ready_exactly_on_accept AUTH_TOKEN).1 none "m"
     [("type", Json.str "session.setup")] (some (Json.obj [])) (by decide)
     (by decide) rfl,
   (session_ready_exactly_on_accept AUTH_TOKEN).2 none
     { raw := "a", parse := some (Json.obj [("type", Json.str "audio.input")]) }
     (by intro fields hf; cases hf; rfl)⟩

/-- C6 counterexample: when authentication fails, `handle_connection`
terminates via the `return` at line 164, which sits BEFORE the
`try`/`finally`, so the `self.websocket` handle assigned at line 159 is not
cleared on that termination path. -/
theorem auth_fail_keeps_handle :
    (handle_connection AUTH_TOKEN 7 none [] []).websocket = some 7 ∧
    (handle_connection AUTH_TOKEN 7 none [] []).websocket ≠ none :=
  ⟨rfl, by decide⟩

/-- C6 (amended): the call context is set only by `session.setup` processing
(every other kind of frame leaves it unchanged), and whenever
`handle_connection` terminates AFTER passing authentication — normal close,
protocol-error close, or exception, all funnelled through the `finally` at
lines 209-213 — `call_context` is reset to `None` and the websocket handle is
cleared; on an authentication-failure return the handle stays set. -/
theorem context_cleared_after_auth (auth_token : String) (connId : Nat)
    (cc0 : Option Json) (headers : List (String × String)) (frames : List Frame)
    (hauth : authHeaderOf headers = some auth_token) :
    (handle_connection auth_token connId cc0 headers frames).call_context = none ∧
    (handle_connection auth_token connId cc0 headers frames).websocket = none ∧
    (∀ (cc : Option Json) (f : Frame),
      (∀ fields : List (String × Json), f.parse = some (Json.obj fields) →
        ((fields.lookup "type").getD Json.null).eqStr "session.setup" = false) →
      (processFrame auth_token cc f).1 = cc) := by
  refine ⟨?_, ?_, ?_⟩
  · unfold handle_connection authenticate_connection
    simp [hauth]
  · unfold handle_connection authenticate_connection
    simp [hauth]
  · intro cc f h
    unfold processFrame
    by_cases hr : f.raw = ""
    · simp [hr]
    · simp only [hr, if_false]
      cases hp : f.parse with
      | none => simp
      | some j =>
        cases j with
        | obj fields =>
          have := h fields hp
          simp only [this, Bool.false_eq_true, if_false]
          by_cases ha : ((fields.lookup "type").getD Json.null).eqStr "audio.input" = true
          · simp [ha]
          · simp [ha]
        | null => simp
        | bool b => simp
        | num n => simp
        | str s => simp
        | arr xs => simp

/-- Witness for the amended C6: a concrete authenticated connection that
accepts a setup and then disconnects; both fields end cleared. -/
theorem context_cleared_after_auth_witness :
    authHeaderOf [("Auth", AUTH_TOKEN)] = some AUTH_TOKEN ∧
    ((handle_connection AUTH_TOKEN 3 none [("Auth", AUTH_TOKEN)]
        [setupFrame 4]).call_context = none ∧
     (handle_connection AUTH_TOKEN 3 none [("Auth", AUTH_TOKEN)]
        [setupFrame 4]).websocket = none ∧
     (∀ (cc : Option Json) (f : Frame),
       (∀ fields : List (String × Json), f.parse = some (Json.obj fields) →
         ((fields.lookup "type").getD Json.null).eqStr "session.setup" = false) →
       (processFrame AUTH_TOKEN cc f).1 = cc)) :=
  ⟨by decide,
   context_cleared_after_auth AUTH_TOKEN 3 none [("Auth", AUTH_TOKEN)]
     [setupFrame 4] (by decide)⟩

/-- C7: a parsed message whose processing raises an exception other than a
JSON decode error or a failed session setup — `data.get('type')` raising
`AttributeError` on a non-dict payload, caught by the loop's top-level
`except Exception`, or an error inside `handle_audio_input`, swallowed by its
own `except` — is logged and the loop continues: no close event is emitted
and the call context is left unchanged. -/
theorem swallowed_errors_continue (auth_token : String) (cc : Option Json)
    (raw : String) (hraw : raw ≠ "") :
    (∀ j : Json, j.isObj = false →
      processFrame auth_token cc { raw := raw, parse := some j } =
        (cc, [], true)) ∧
    (∀ fields : List (String × Json),
      ((fields.lookup "type").getD Json.null).eqStr "audio.input" = true →
      handle_audio_input (Json.obj fields) = false →
      processFrame auth_token cc { raw := raw, parse := some (Json.obj fields) } =
        (cc, [], true)) := by
  constructor
  · intro j hj
    unfold processFrame
    cases j with
    | obj fields => simp [Json.isObj] at hj
    | null => simp [hraw]
    | bool b => simp [hraw]
    | num n => simp [hraw]
    | str s => simp [hraw]
    | arr xs => simp [hraw]
  · intro fields hty hai
    have hmt : (fields.lookup "type").getD Json.null = Json.str "audio.input" :=
      (eqStr_true_iff _ _).mp hty
    unfold processFrame
    simp [hraw, hmt, Json.eqStr, hai]

/-- Witness for C7: a parsed payload that is a bare number (so
`data.get('type')` raises), and an `audio.input` whose `audio` value is
`null` (so `len` raises inside `handle_audio_input`). -/
theorem swallowed_errors_continue_witness :
    ("5" : String) ≠ "" ∧
    processFrame AUTH_TOKEN none { raw := "5", parse := some (Json.num 5) } =
      (none, [], true) ∧
    processFrame AUTH_TOKEN none
        { raw := "a",
          parse := some (Json.obj [("type", Json.str "audio.input"),
            ("data", Json.obj [("audio", Json.null)])]) } =
      (none, [], true) :=
  ⟨by decide,
   (swallowed_errors_continue AUTH_TOKEN none "5" (by decide)).1 (Json.num 5) rfl,
   (swallowed_errors_continue AUTH_TOKEN none "a" (by decide)).2
     [("type", Json.str "audio.input"), ("data", Json.obj [("audio", Json.null)])]
     (by decide) rfl⟩

/-- C8 counterexample: an `audio.input` whose `audio` value is JSON `null`
makes `len(audio_data)` raise `TypeError` before `generate_ai_response()` is
reached, so the handler makes ZERO calls to the response generator for that
message (no `aiResponse` event), not exactly one. -/
theorem audio_null_no_ai_call :
    handle_audio_input
        (Json.obj [("type", Json.str "audio.input"),
          ("data", Json.obj [("audio", Json.null)])]) = false ∧
    (processFrame AUTH_TOKEN none
        { raw := "a",
          parse := some (Json.obj [("type", Json.str "audio.input"),
            ("data", Json.obj [("audio", Json.null)])]) }).2.1 = [] :=
  ⟨rfl, rfl⟩

/-- C8 (amended): an `audio.input` message never closes the connection and
never changes the call context; the handler calls `generate_ai_response`
exactly once — one `aiResponse` event — precisely when the audio value
supports `len` (in particular whenever `data.audio` is a string, as the
protocol prescribes); when `len` or `.get` raises, the error is swallowed and
no call is made. -/
theorem audio_input_dispatch (auth_token : String) (cc : Option Json)
    (raw : String) (fields : List (String × Json))
    (hraw : raw ≠ "")
    (hty : ((fields.lookup "type").getD Json.null).eqStr "audio.input" = true) :
    (processFrame auth_token cc { raw := raw, parse := some (Json.obj fields) }).1 =
      cc ∧
    (processFrame auth_token cc { raw := raw, parse := some (Json.obj fields) }).2.2 =
      true ∧
    (∀ (code : Nat) (reason : String),
      Event.closed code reason ∉
        (processFrame auth_token cc { raw := raw, parse := some (Json.obj fields) }).2.1) ∧
    (∀ dfields : List (String × Json),
      (fields.lookup "data").getD (Json.obj []) = Json.obj dfields →
      ((((dfields.lookup "audio").getD (Json.str "")).pyLen).isSome = true →
        (processFrame auth_token cc { raw := raw, parse := some (Json.obj fields) }).2.1 =
          [Event.aiResponse]) ∧
      ((((dfields.lookup "audio").getD (Json.str "")).pyLen).isSome = false →
        (processFrame auth_token cc { raw := raw, parse := some (Json.obj fields) }).2.1 =
          [])) := by
  have hmt : (fields.lookup "type").getD Json.null = Json.str "audio.input" :=
    (eqStr_true_iff _ _).mp hty
  have hpf : processFrame auth_token cc { raw := raw, parse := some (Json.obj fields) } =
      (cc, if handle_audio_input (Json.obj fields) then [Event.aiResponse] else [],
       true) := by
    unfold processFrame
    simp [hraw, hmt, Json.eqStr]
  refine ⟨?_, ?_, ?_, ?_⟩
  · rw [hpf]
  · rw [hpf]
  · intro code reason
    rw [hpf]
    by_cases hai : handle_audio_input (Json.obj fields) = true
    · simp [hai]
    · simp [hai]
  · intro dfields hd
    have hai : handle_audio_input (Json.obj fields) =
        (((dfields.lookup "audio").getD (Json.str "")).pyLen).isSome := by
      unfold handle_audio_input
      simp [hd]
    constructor
    · intro hlen
      rw [hpf]
      simp [hai, hlen]
    · intro hlen
      rw [hpf]
      simp [hai, hlen]

/-- Witness for the amended C8: a concrete audio frame carrying a base64
string payload. -/
theorem audio_input_dispatch_witness :
    ("a" : String) ≠ "" ∧
    ((((([("type", Json.str "audio.input"),
        ("data", Json.obj [("audio", Json.str "UklGR")])] :
          List (String × Json)).lookup "type").getD Json.null)).eqStr
        "audio.input") = true ∧
    (processFrame AUTH_TOKEN none
        { raw := "a",
          parse := some (Json.obj [("type", Json.str "audio.input"),
            ("data", Json.obj [("audio", Json.str "UklGR")])]) }).2.1 =
      [Event.aiResponse] :=
  ⟨by decide, by decide,
   (((audio_input_dispatch AUTH_TOKEN none "a"
       [("type", Json.str "audio.input"),
        ("data", Json.obj [("audio", Json.str "UklGR")])]
       (by decide) (by decide)).2.2.2
       [("audio", Json.str "UklGR")] rfl).1 rfl)⟩

/-- C9 counterexample: a `session.setup` with NO `apiKey` field does skip the
token check, but it is not accepted when the context extraction raises:
with `data` bound to the number 5, `.get('context')` raises `AttributeError`,
`handle_session_setup` returns `False` with the call context untouched, and
the socket is closed with 1002 rather than the setup being accepted. -/
theorem apikey_absent_setup_rejected :
    handle_session_setup AUTH_TOKEN
        (Json.obj [("type", Json.str "session.setup"), ("data", Json.num 5)]) =
      (none, false) ∧
    processFrame AUTH_TOKEN none
        { raw := "m",
          parse := some (Json.obj [("type", Json.str "session.setup"),
            ("data", Json.num 5)]) } =
      (none, [Event.closed 1002 "Session setup failed"], false) :=
  ⟨rfl, rfl⟩

/-- C9 (amended): for every `session.setup` whose `apiKey` field is absent,
`None`, or the empty string, the in-band token check is skipped — the guard
`if api_key and ...` never fires, however the key compares to the token —
and, provided the context extraction succeeds (the `data` field and the
`context` value are objects, or absent and defaulted), the setup is accepted:
`handle_session_setup` returns `True` and assigns the extracted context to
`call_context`. -/
theorem falsy_apikey_skips_token_check (auth_token : String)
    (fields dfields cfields : List (String × Json))
    (hapi : fields.lookup "apiKey" = none ∨
            fields.lookup "apiKey" = some Json.null ∨
            fields.lookup "apiKey" = some (Json.str ""))
    (hd : (fields.lookup "data").getD (Json.obj []) = Json.obj dfields)
    (hc : (dfields.lookup "context").getD (Json.obj []) = Json.obj cfields) :
    handle_session_setup auth_token (Json.obj fields) =
      (some (Json.obj cfields), true) := by
  unfold handle_session_setup
  rcases hapi with h | h | h <;>
    simp [h, Json.truthy, hd, hc, Json.isObj]

/-- Witness for the amended C9: a concrete setup with `apiKey` bound to
`null`, accepted with its context despite the token mismatch. -/
theorem falsy_apikey_skips_token_check_witness :
    (([("apiKey", Json.null),
       ("data", Json.obj [("context", Json.obj [("id", Json.num 9)])])] :
         List (String × Json)).lookup "apiKey" = some Json.null) ∧
    handle_session_setup AUTH_TOKEN
        (Json.obj [("apiKey", Json.null),
          ("data", Json.obj [("context", Json.obj [("id", Json.num 9)])])]) =
      (some (Json.obj [("id", Json.num 9)]), true) :=
  ⟨rfl,
   falsy_apikey_skips_token_check AUTH_TOKEN
     [("apiKey", Json.null),
      ("data", Json.obj [("context", Json.obj [("id", Json.num 9)])])]
     [("context", Json.obj [("id", Json.num 9)])]
     [("id", Json.num 9)]
     (Or.inr (Or.inl rfl)) rfl rfl⟩

/-- C10: the loop enforces no handshake ordering: with the call context still
unset (no `session.setup` accepted yet), a well-formed `audio.input` message
is still dispatched to `handle_audio_input`, which reaches
`generate_ai_response` (one `aiResponse` event), the loop continues and the
call context stays unset. -/
theorem audio_before_setup_dispatched (auth_token : String) (raw : String)
    (fields dfields : List (String × Json)) (s : String)
    (hraw : raw ≠ "")
    (hty : ((fields.lookup "type").getD Json.null).eqStr "audio.input" = true)
    (hd : (fields.lookup "data").getD (Json.obj []) = Json.obj dfields)
    (ha : (dfields.lookup "audio").getD (Json.str "") = Json.str s) :
    handle_audio_input (Json.obj fields) = true ∧
    processFrame auth_token none { raw := raw, parse := some (Json.obj fields) } =
      (none, [Event.aiResponse], true) := by
  have hmt : (fields.lookup "type").getD Json.null = Json.str "audio.input" :=
    (eqStr_true_iff _ _).mp hty
  have hai : handle_audio_input (Json.obj fields) = true := by
    unfold handle_audio_input
    simp [hd, ha, Json.pyLen]
  refine ⟨hai, ?_⟩
  unfold processFrame
  simp [hraw, hmt, Json.eqStr, hai]

/-- Witness for C10: a concrete audio frame processed while the call context
is still `none`. -/
theorem audio_before_setup_dispatched_witness :
    ("a" : String) ≠ "" ∧
    (handle_audio_input
        (Json.obj [("type", Json.str "audio.input"),
          ("data", Json.obj [("audio", Json.str "AAAA")])]) = true ∧
     processFrame AUTH_TOKEN none
        { raw := "a",
          parse := some (Json.obj [("type", Json.str "audio.input"),
            ("data", Json.obj [("audio", Json.str "AAAA")])]) } =
       (none, [Event.aiResponse], true)) :=
  ⟨by decide,
   audio_before_setup_dispatched AUTH_TOKEN "a"
     [("type", Json.str "audio.input"),
      ("data", Json.obj [("audio", Json.str "AAAA")])]
     [("audio", Json.str "AAAA")] "AAAA"
     (by decide) (by decide) rfl rfl⟩
